import Mathlib

/-!
# PapyrusProfiler: plugin entry points and profiling configuration

A shallow embedding of `src/src/Main.cpp` and `src/include/ProfilingConfig.h`.

* Machine integers are natural numbers; every truncation the C++ performs is an
  explicit `% 2 ^ w`.
* Calls on collaborators (the profiling hook, the settings singleton, the SKSE
  messaging interface, the logger) are recorded, in program order, in a trace that
  is carried by the `World` the entry points transform.
* A C++ exception is a value of `Outcome.threw`; `report_and_fail`, which ends the
  process, is `Outcome.failed`.
-/

namespace PapyrusProfiler

/-! ## version.h and GetBuildNumber -/

/-- The three macros `PROJECT_VER_MAJOR`, `PROJECT_VER_MINOR`, `PROJECT_VER_PATCH`
of `version.h`. That header is generated at build time, so the three numbers are
parameters of the development. -/
structure ProjectVersion where
  MAJOR : Nat
  MINOR : Nat
  PATCH : Nat
  deriving DecidableEq, Repr

/-- Width of `std::size_t` on the only target of the plugin (64-bit Windows). -/
def SIZE_T_BITS : Nat := 64

/-- Width of `unsigned int`. -/
def UINT_BITS : Nat := 32

/-- The expression `(MAJOR << 8) + (MINOR << 4) + PATCH` of `Main.cpp:28`, read over
unbounded natural numbers. -/
def buildExpr (v : ProjectVersion) : Nat :=
  (v.MAJOR <<< 8) + (v.MINOR <<< 4) + v.PATCH

/-- `PapyrusProfilerInterface001::GetBuildNumber` (`Main.cpp:22-29`): the three
constants are `std::size_t`, the shifts and sums are computed in `std::size_t`, and
the `return` converts the sum to `unsigned int`. -/
def GetBuildNumber (v : ProjectVersion) : Nat :=
  let MAJOR := v.MAJOR % 2 ^ SIZE_T_BITS
  let MINOR := v.MINOR % 2 ^ SIZE_T_BITS
  let PATCH := v.PATCH % 2 ^ SIZE_T_BITS
  let shiftedMajor := (MAJOR <<< 8) % 2 ^ SIZE_T_BITS
  let shiftedMinor := (MINOR <<< 4) % 2 ^ SIZE_T_BITS
  let sum := ((shiftedMajor + shiftedMinor) % 2 ^ SIZE_T_BITS + PATCH) % 2 ^ SIZE_T_BITS
  sum % 2 ^ UINT_BITS

/-- Lexicographic order on version triples: major first, then minor, then patch. -/
def lexLt (v w : ProjectVersion) : Prop :=
  v.MAJOR < w.MAJOR ∨
    (v.MAJOR = w.MAJOR ∧ (v.MINOR < w.MINOR ∨ (v.MINOR = w.MINOR ∧ v.PATCH < w.PATCH)))

instance (v w : ProjectVersion) : Decidable (lexLt v w) := by
  unfold lexLt
  infer_instance

/-- Every component of the triple fits the bit field the packing gives it: four bits
for minor and patch, the remaining twenty-four of an `unsigned int` for major. -/
def fitsFields (v : ProjectVersion) : Prop :=
  v.MINOR < 16 ∧ v.PATCH < 16 ∧ v.MAJOR < 2 ^ 24

instance (v : ProjectVersion) : Decidable (fitsFields v) := by
  unfold fitsFields
  infer_instance

/-! ## Collaborators

`ProfilingHook.h`, `Settings.h`, `Papyrus.h`, `PapyrusAPI.h` and the SKSE library are
not among the sources. What `Main.cpp` does with them is call them; the embedding
records every such call and takes the effect of the call on the callee's own state as
a parameter (`Collaborators`), and the values the host hands back as `Host`. -/

/-- Severity of a log line (`spdlog::level`), as far as `Main.cpp` uses it. -/
inductive LogLevel where
  | trace
  | debug
  | info
  | error
  deriving DecidableEq, Repr

/-- The two message callbacks defined in `Main.cpp`. -/
inductive Handler where
  | ModMessageHandler
  | MessageHandler
  deriving DecidableEq, Repr

/-- Sink handed to the default logger in `InitializeLogging`. -/
inductive Sink where
  | msvc_sink_mt
  | basic_file_sink_mt (directory : String) (fileName : String)
  deriving DecidableEq, Repr

/-- A call `Main.cpp` makes on a collaborator. -/
inductive Call where
  /-- The call `logger::trace/debug/info/error`, with the formatted text. -/
  | log (level : LogLevel) (text : String)
  /-- The call `Profiling::ProfilingHook::GetSingleton().RunConfig(configName)`. -/
  | RunConfig (configName : String)
  /-- The call `Profiling::ProfilingHook::GetSingleton().StopCurrentConfig()`. -/
  | StopCurrentConfig
  /-- The call `Profiling::ProfilingHook::InstallHook()`. -/
  | InstallHook
  /-- The call `Settings::GetSingleton()->Load()`. -/
  | Load
  /-- The call `SKSE::GetMessagingInterface()->RegisterListener(handler)`. -/
  | RegisterListener (handler : Handler)
  /-- The call `SKSE::GetMessagingInterface()->RegisterListener(sender, handler)`;
  a null `sender` is `none`. -/
  | RegisterListenerFrom (sender : Option String) (handler : Handler)
  /-- The call `GetPapyrusInterface()->Register(Profiling::Papyrus::Bind)`. -/
  | PapyrusRegister
  /-- The call `SKSE::Init(skse)`. -/
  | Init
  /-- The calls `set_level`, `flush_on` and `spdlog::set_default_logger`. -/
  | set_default_logger (sink : Sink) (level : LogLevel)
  /-- The call `spdlog::set_pattern`. -/
  | set_pattern (pattern : String)
  deriving DecidableEq, Repr

/-- `Settings::papyrusProfilerSettings`; `Main.cpp` reads its `startupConfig`. -/
structure PapyrusProfilerSettings where
  startupConfig : String
  deriving DecidableEq, Repr

/-- The settings singleton, as far as `Main.cpp` reads it. -/
structure Settings where
  papyrusProfilerSettings : PapyrusProfilerSettings
  deriving DecidableEq, Repr

/-- Effect of each operation of the profiling hook and of the settings singleton on
the state of its own singleton. `H` is the state of the hook, `ε` the type of C++
exceptions. The hook operations are taken to return normally; `Load` may throw,
which is the second component of its result. -/
structure Collaborators (H ε : Type) where
  RunConfig : String → H → H
  StopCurrentConfig : H → H
  InstallHook : H → H
  Load : Settings → Settings × Option ε

/-- What the host process and the build hand to `Main.cpp`. -/
structure Host where
  /-- The macros of `version.h`. -/
  PROJECT_VER : ProjectVersion
  /-- The constant `PapyrusProfilerAPI::PapyrusProfilerPluginName` of `PapyrusAPI.h`. -/
  PapyrusProfilerPluginName : String
  /-- The value of `PluginDeclaration::GetSingleton()->GetName()`. -/
  pluginName : String
  /-- The value of `PluginDeclaration::GetSingleton()->GetVersion()`, formatted. -/
  pluginVersion : String
  /-- The value of `log_directory()`. -/
  log_directory : Option String
  /-- The value of `IsDebuggerPresent()`. -/
  IsDebuggerPresent : Bool
  /-- Whether the build defines `NDEBUG`. -/
  NDEBUG : Bool
  /-- Result of `RegisterListener(nullptr, ModMessageHandler)`. -/
  registerModListener : Bool
  /-- Result of `GetPapyrusInterface()->Register(Profiling::Papyrus::Bind)`. -/
  papyrusRegister : Bool

/-- State of the process as `Main.cpp` sees it: the two singletons and the calls made
so far, oldest first. -/
structure World (H : Type) where
  hook : H
  settings : Settings
  trace : List Call

/-- How a C++ function ends: it returns, it throws, or it calls `report_and_fail`,
which terminates the process. -/
inductive Outcome (ε α : Type) where
  | returned (value : α)
  | threw (exception : ε)
  | failed (message : String)

/-- Sequencing of two statements: the second runs only when the first returned. -/
def andThen {H ε α β : Type} (r : Outcome ε α × World H)
    (k : α → World H → Outcome ε β × World H) : Outcome ε β × World H :=
  match r with
  | (Outcome.returned a, w) => k a w
  | (Outcome.threw e, w) => (Outcome.threw e, w)
  | (Outcome.failed m, w) => (Outcome.failed m, w)

/-- The block `try { body } catch (...) { handler }` for a handler that returns. -/
def tryCatchAll {H ε : Type} (body : Outcome ε Unit × World H)
    (handler : World H → World H) : Outcome ε Unit × World H :=
  match body with
  | (Outcome.returned a, w) => (Outcome.returned a, w)
  | (Outcome.threw _, w) => (Outcome.returned (), handler w)
  | (Outcome.failed m, w) => (Outcome.failed m, w)

/-- Append one call to the trace. -/
def World.call {H : Type} (w : World H) (c : Call) : World H :=
  { hook := w.hook, settings := w.settings, trace := w.trace ++ [c] }

/-- The logger call at the given level. -/
def logger {H : Type} (level : LogLevel) (text : String) (w : World H) : World H :=
  w.call (Call.log level text)

/-- `Profiling::ProfilingHook::GetSingleton().RunConfig(configName)`. -/
def ProfilingHook.RunConfig {H ε : Type} (ops : Collaborators H ε) (configName : String)
    (w : World H) : World H :=
  { hook := ops.RunConfig configName w.hook, settings := w.settings,
    trace := w.trace ++ [Call.RunConfig configName] }

/-- `Profiling::ProfilingHook::GetSingleton().StopCurrentConfig()`. -/
def ProfilingHook.StopCurrentConfig {H ε : Type} (ops : Collaborators H ε)
    (w : World H) : World H :=
  { hook := ops.StopCurrentConfig w.hook, settings := w.settings,
    trace := w.trace ++ [Call.StopCurrentConfig] }

/-- `Profiling::ProfilingHook::InstallHook()`. -/
def ProfilingHook.InstallHook {H ε : Type} (ops : Collaborators H ε)
    (w : World H) : World H :=
  { hook := ops.InstallHook w.hook, settings := w.settings,
    trace := w.trace ++ [Call.InstallHook] }

/-- `Settings::GetSingleton()->Load()`. -/
def Settings.Load {H ε : Type} (ops : Collaborators H ε) (w : World H) :
    Outcome ε Unit × World H :=
  let w1 : World H :=
    { hook := w.hook, settings := (ops.Load w.settings).1, trace := w.trace ++ [Call.Load] }
  match (ops.Load w.settings).2 with
  | none => (Outcome.returned (), w1)
  | some e => (Outcome.threw e, w1)

/-! ## The mod-support API (`Main.cpp:16-52`) -/

/-- `PapyrusProfilerInterface001::StartProfilingConfig` (`Main.cpp:31-33`). -/
def PapyrusProfilerInterface001.StartProfilingConfig {H ε : Type} (ops : Collaborators H ε)
    (configName : String) (w : World H) : World H :=
  ProfilingHook.RunConfig ops configName w

/-- `PapyrusProfilerInterface001::StopProfiling` (`Main.cpp:35`). -/
def PapyrusProfilerInterface001.StopProfiling {H ε : Type} (ops : Collaborators H ε)
    (w : World H) : World H :=
  ProfilingHook.StopCurrentConfig ops w

/-- `PapyrusProfilerInterface001::LoadSettings` (`Main.cpp:36`). There is no handler
around the call, so an exception of `Load` leaves `LoadSettings` too. -/
def PapyrusProfilerInterface001.LoadSettings {H ε : Type} (ops : Collaborators H ε)
    (w : World H) : Outcome ε Unit × World H :=
  Settings.Load ops w

/-- An object whose address `GetApi` can return. `Main.cpp:42` defines exactly one,
the global `g_interface001`. -/
inductive ApiObject where
  | g_interface001
  deriving DecidableEq, Repr

/-- `GetApi` (`Main.cpp:45-52`). The returned `void*` is `none` for `nullptr` and
`some o` for the address of the object `o`. -/
def GetApi {H : Type} (revisionNumber : Nat) (w : World H) : Option ApiObject × World H :=
  match revisionNumber with
  | 1 => (some ApiObject.g_interface001, logger LogLevel.info "Interface revision 1 requested" w)
  | _ => (none, w)

/-! ## Plugin start-up and the SKSE message handler (`Main.cpp:64-183`) -/

/-- `InitializeLogging` (`Main.cpp:68-95`). -/
def InitializeLogging {H ε : Type} (host : Host) (w : World H) : Outcome ε Unit × World H :=
  match host.log_directory with
  | none => (Outcome.failed "Unable to lookup SKSE logs directory.", w)
  | some path =>
    let sink :=
      if host.IsDebuggerPresent then Sink.msvc_sink_mt
      else Sink.basic_file_sink_mt path (host.pluginName ++ ".log")
    let level := if host.NDEBUG then LogLevel.info else LogLevel.trace
    let w1 := w.call (Call.set_default_logger sink level)
    (Outcome.returned (),
      w1.call (Call.set_pattern "[%Y-%m-%d %H:%M:%S.%e] [%n] [%l] [%t] [%s:%#] %v"))

/-- `InitializeHooks` (`Main.cpp:100-106`). -/
def InitializeHooks {H ε : Type} (ops : Collaborators H ε) (w : World H) : World H :=
  let w1 := logger LogLevel.trace "Initializing hooks..." w
  let w2 := ProfilingHook.InstallHook ops w1
  logger LogLevel.trace "Hooks initialized." w2

/-- `InitializePapyrus` (`Main.cpp:111-118`). -/
def InitializePapyrus {H ε : Type} (host : Host) (w : World H) : Outcome ε Unit × World H :=
  let w1 := logger LogLevel.trace "Initializing Papyrus bindings..." w
  let w2 := w1.call Call.PapyrusRegister
  if host.papyrusRegister then
    (Outcome.returned (), logger LogLevel.debug "Papyrus functions bound." w2)
  else
    (Outcome.failed "Failure to register Papyrus bindings.", w2)

/-- The message types `MessageHandler` distinguishes; every other value of
`a_msg->type` is `other`. -/
inductive MessageType where
  | kNewGame
  | kPostLoad
  | kPreLoadGame
  | other (type : Nat)
  deriving DecidableEq, Repr

/-- `MessageHandler` (`Main.cpp:120-146`). The labels `kNewGame` and `kPostLoad` share
the first block, which ends in `break`; `kPreLoadGame` has the second block; the
`switch` has no `default`. -/
def MessageHandler {H ε : Type} (host : Host) (ops : Collaborators H ε) (type : MessageType)
    (w : World H) : World H :=
  match type with
  | MessageType.kNewGame | MessageType.kPostLoad =>
    let w1 := w.call (Call.RegisterListenerFrom none Handler.ModMessageHandler)
    if host.registerModListener then
      logger LogLevel.info
        ("Successfully registered SKSE listener " ++ host.PapyrusProfilerPluginName ++
          " with buildnumber " ++ toString (GetBuildNumber host.PROJECT_VER)) w1
    else
      logger LogLevel.info "Unable to register SKSE listener" w1
  | MessageType.kPreLoadGame =>
    let w1 := ProfilingHook.StopCurrentConfig ops w
    let startupConfig := w1.settings.papyrusProfilerSettings.startupConfig
    if startupConfig.isEmpty then
      logger LogLevel.info "Not starting any profiling config, .ini setting is empty." w1
    else
      let w2 := logger LogLevel.info
        ("Starting up profiling config from .ini: " ++ startupConfig) w1
      ProfilingHook.RunConfig ops startupConfig w2
  | MessageType.other _ => w

/-- `SKSEPluginLoad` (`Main.cpp:152-183`), built without `_DEBUG_WAIT_FOR_ATTACH`.
`SKSE::Init` and `RegisterListener` are taken to return normally. -/
def SKSEPluginLoad {H ε : Type} (host : Host) (ops : Collaborators H ε) (w : World H) :
    Outcome ε Bool × World H :=
  andThen (InitializeLogging host w) fun _ w1 =>
    let w2 := logger LogLevel.info
      (host.pluginName ++ " " ++ host.pluginVersion ++ " is loading...") w1
    let w3 := w2.call Call.Init
    andThen
      (tryCatchAll (Settings.Load ops w3)
        (logger LogLevel.error
          "Exception caught when loading settings! Default settings will be used"))
      fun _ w4 =>
        let w5 := InitializeHooks ops w4
        andThen (InitializePapyrus host w5) fun _ w6 =>
          let w7 := w6.call (Call.RegisterListener Handler.MessageHandler)
          let w8 := logger LogLevel.info (host.pluginName ++ " has finished loading.") w7
          (Outcome.returned true, w8)

/-! ## ProfilingConfig.h -/

/-- `ProfilingConfig::ProfileWriteMode` (`ProfilingConfig.h:17-23`), an `enum class`
with underlying type `std::uint32_t`: a value of the type is any 32-bit code,
`toUInt32` is that code, and the declaration names four of the values. -/
structure ProfileWriteMode where
  toUInt32 : Nat
  isUInt32 : toUInt32 < 2 ^ 32
  deriving DecidableEq, Repr

/-- The conversion `static_cast<ProfileWriteMode>(code)` from an unsigned integer. -/
def ProfileWriteMode.ofUInt32 (code : Nat) : ProfileWriteMode :=
  ⟨code % 2 ^ 32, Nat.mod_lt code (by decide)⟩

/-- The enumerator `WriteAtEnd = 0`: write all data at once at the end. -/
def ProfileWriteMode.WriteAtEnd : ProfileWriteMode := ⟨0, by decide⟩

/-- The enumerator `WriteLive = 1`: continuously write data as it is collected. -/
def ProfileWriteMode.WriteLive : ProfileWriteMode := ⟨1, by decide⟩

/-- The enumerator `NoWrite = 2`: write nothing to a file. -/
def ProfileWriteMode.NoWrite : ProfileWriteMode := ⟨2, by decide⟩

/-- The enumerator `Invalid = 3`. -/
def ProfileWriteMode.Invalid : ProfileWriteMode := ⟨3, by decide⟩

/-- The data members of `ProfilingConfig` (`ProfilingConfig.h:28-62`), each with its
default member initialiser; a `std::vector` without initialiser starts empty.
`ρ` stands for `std::regex`. -/
structure ProfilingConfig (ρ : Type) where
  includeFilters : List ρ := []
  excludeFilters : List ρ := []
  outFilename : String := ""
  maxFilepathSuffix : Nat := 0
  maxNumCalls : Nat := 0
  maxNumSeconds : Nat := 0
  numSkipCalls : Nat := 0
  numSkipSeconds : Nat := 0
  showDebugMessageBox : Bool := true
  writeMode : ProfileWriteMode := ProfileWriteMode.WriteAtEnd
  failedLoadFromFile : Bool := false

/-- A `ProfilingConfig` no constructor body or source has written to: every member
holds its default member initialiser. -/
def ProfilingConfig.memberDefaults (ρ : Type) : ProfilingConfig ρ := {}

/-- Modelled from the spec: the filter decision `Accept` of the Filter Engine (§4.2),
whose code is in the profiling hook's implementation and not among the sources.
"If `includeFilters` is non-empty, the signature must match at least one include
pattern, else it is rejected outright; then, if any exclude pattern matches, reject
regardless of include outcome. If `includeFilters` is empty, the include stage is
skipped." The comments on the two members in `ProfilingConfig.h:28-32` say the same of
each list. The regular-expression search itself is the parameter `regex_search`. -/
def Accept {ρ : Type} (regex_search : String → ρ → Bool) (config : ProfilingConfig ρ)
    (stackSignature : String) : Bool :=
  if !config.includeFilters.isEmpty &&
      !config.includeFilters.any (regex_search stackSignature) then
    false
  else if config.excludeFilters.any (regex_search stackSignature) then
    false
  else
    true

/-! ## Concrete collaborators, for evaluating the entry points -/

/-- A host at version 1.2.3 in which every host call succeeds. -/
def exampleHost : Host :=
  { PROJECT_VER := ⟨1, 2, 3⟩
    PapyrusProfilerPluginName := "PapyrusProfiler"
    pluginName := "PapyrusProfiler"
    pluginVersion := "1.2.3"
    log_directory := some "SKSE"
    IsDebuggerPresent := false
    NDEBUG := true
    registerModListener := true
    papyrusRegister := true }

/-- A hook whose state is the list of configurations run since the last stop, and a
settings loader that throws. -/
def exampleOps : Collaborators (List String) String :=
  { RunConfig := fun configName running => running ++ [configName]
    StopCurrentConfig := fun _ => []
    InstallHook := fun running => running
    Load := fun settings => (settings, some "cannot read the .ini file") }

/-- A world in which configuration `Old` runs and the startup configuration is
`Startup`. -/
def exampleWorld : World (List String) :=
  { hook := ["Old"], settings := ⟨⟨"Startup"⟩⟩, trace := [] }

/-- A regular-expression search for patterns that are literal texts: the pattern
occurs somewhere in the subject. -/
def literalSearch (subject : String) (pattern : String) : Bool :=
  decide (pattern.data <:+: subject.data)

/-! ### Arithmetic of the packing -/

theorem buildExpr_eq (v : ProjectVersion) :
    buildExpr v = 256 * v.MAJOR + 16 * v.MINOR + v.PATCH := by
  simp only [buildExpr, Nat.shiftLeft_eq]
  omega

theorem GetBuildNumber_eq_mod (v : ProjectVersion) :
    GetBuildNumber v = buildExpr v % 2 ^ 32 := by
  simp only [GetBuildNumber, buildExpr, Nat.shiftLeft_eq, SIZE_T_BITS, UINT_BITS]
  omega

theorem GetBuildNumber_of_lt (v : ProjectVersion) (h : buildExpr v < 2 ^ 32) :
    GetBuildNumber v = buildExpr v := by
  rw [GetBuildNumber_eq_mod, Nat.mod_eq_of_lt h]

theorem buildExpr_lt_of_fits (v : ProjectVersion) (h : fitsFields v) :
    buildExpr v < 2 ^ 32 := by
  obtain ⟨h1, h2, h3⟩ := h
  rw [buildExpr_eq]
  omega

theorem buildExpr_strictMono (v w : ProjectVersion) (hm : v.MINOR < 16) (hp : v.PATCH < 16)
    (h : lexLt v w) : buildExpr v < buildExpr w := by
  rw [buildExpr_eq, buildExpr_eq]
  unfold lexLt at h
  omega

theorem lexLt_trichotomy (v w : ProjectVersion) : lexLt v w ∨ v = w ∨ lexLt w v := by
  obtain ⟨a, b, c⟩ := v
  obtain ⟨a', b', c'⟩ := w
  simp only [lexLt, ProjectVersion.mk.injEq]
  omega

/-! ## The build number -/

/-- C1, counterexample: version 0.16.0 is lexicographically smaller than 1.0.0, yet
both get build number 256, so the build number of the smaller triple is not strictly
smaller. This holds for the unbounded expression and for the value returned. -/
theorem GetBuildNumber_not_monotone :
    lexLt ⟨0, 16, 0⟩ ⟨1, 0, 0⟩ ∧
      ¬ (buildExpr ⟨0, 16, 0⟩ < buildExpr ⟨1, 0, 0⟩) ∧
      ¬ (GetBuildNumber ⟨0, 16, 0⟩ < GetBuildNumber ⟨1, 0, 0⟩) := by
  decide

/-- C1, amended: when the minor and patch numbers of the smaller triple `v` are below
16, `v` lexicographically smaller than `w` gives a strictly smaller value of
`(major << 8) + (minor << 4) + patch`; and the value `GetBuildNumber` returns is
strictly smaller as well whenever that of `w` fits in an `unsigned int`. -/
theorem GetBuildNumber_monotone_of_nibbles (v w : ProjectVersion)
    (hminor : v.MINOR < 16) (hpatch : v.PATCH < 16) (hlt : lexLt v w) :
    buildExpr v < buildExpr w ∧
      (buildExpr w < 2 ^ 32 → GetBuildNumber v < GetBuildNumber w) := by
  have h := buildExpr_strictMono v w hminor hpatch hlt
  refine ⟨h, fun hw => ?_⟩
  rw [GetBuildNumber_of_lt w hw, GetBuildNumber_of_lt v (lt_trans h hw)]
  exact h

/-- Witness of `GetBuildNumber_monotone_of_nibbles` at versions 1.2.3 and 1.3.0. -/
theorem GetBuildNumber_monotone_of_nibbles_witness :
    (2 < 16 ∧ 3 < 16 ∧ lexLt ⟨1, 2, 3⟩ ⟨1, 3, 0⟩ ∧ buildExpr ⟨1, 3, 0⟩ < 2 ^ 32) ∧
      buildExpr ⟨1, 2, 3⟩ < buildExpr ⟨1, 3, 0⟩ ∧
      GetBuildNumber ⟨1, 2, 3⟩ < GetBuildNumber ⟨1, 3, 0⟩ :=
  ⟨by decide,
    (GetBuildNumber_monotone_of_nibbles ⟨1, 2, 3⟩ ⟨1, 3, 0⟩ (by decide) (by decide)
      (by decide)).1,
    (GetBuildNumber_monotone_of_nibbles ⟨1, 2, 3⟩ ⟨1, 3, 0⟩ (by decide) (by decide)
      (by decide)).2 (by decide)⟩

/-- C10: for triples with minor < 16, patch < 16 and major < 2^24 the build number is
`256 * major + 16 * minor + patch`, the unbounded sum is below 2^32 (no wrap-around),
equal build numbers come from equal triples, and the lexicographic order of the
triples is exactly the order of the build numbers; and without the bound two distinct
triples collide: 0.16.0 and 1.0.0, and also 0.0.16 and 0.1.0. -/
theorem GetBuildNumber_packing (v w : ProjectVersion) (hv : fitsFields v) (hw : fitsFields w) :
    GetBuildNumber v = 256 * v.MAJOR + 16 * v.MINOR + v.PATCH ∧
      buildExpr v < 2 ^ 32 ∧
      (GetBuildNumber v = GetBuildNumber w → v = w) ∧
      (lexLt v w ↔ GetBuildNumber v < GetBuildNumber w) ∧
      (∃ a b : ProjectVersion, a ≠ b ∧ 16 ≤ a.MINOR ∧ GetBuildNumber a = GetBuildNumber b) ∧
      (∃ a b : ProjectVersion, a ≠ b ∧ 16 ≤ a.PATCH ∧ GetBuildNumber a = GetBuildNumber b) := by
  have ev := GetBuildNumber_of_lt v (buildExpr_lt_of_fits v hv)
  have ew := GetBuildNumber_of_lt w (buildExpr_lt_of_fits w hw)
  have mono : ∀ a b : ProjectVersion, fitsFields a → lexLt a b → buildExpr a < buildExpr b :=
    fun a b ha hab => buildExpr_strictMono a b ha.1 ha.2.1 hab
  refine ⟨?_, buildExpr_lt_of_fits v hv, ?_, ?_, ?_, ?_⟩
  · rw [ev, buildExpr_eq]
  · intro h
    rw [ev, ew] at h
    rcases lexLt_trichotomy v w with h1 | h1 | h1
    · exact absurd h (Nat.ne_of_lt (mono v w hv h1))
    · exact h1
    · exact absurd h.symm (Nat.ne_of_lt (mono w v hw h1))
  · rw [ev, ew]
    constructor
    · exact mono v w hv
    · intro h
      rcases lexLt_trichotomy v w with h1 | h1 | h1
      · exact h1
      · subst h1
        exact absurd h (lt_irrefl _)
      · exact absurd h (Nat.lt_asymm (mono w v hw h1))
  · exact ⟨⟨0, 16, 0⟩, ⟨1, 0, 0⟩, by decide, by decide, by decide⟩
  · exact ⟨⟨0, 0, 16⟩, ⟨0, 1, 0⟩, by decide, by decide, by decide⟩

/-- Witness of `GetBuildNumber_packing` at versions 1.2.3 and 1.3.0. -/
theorem GetBuildNumber_packing_witness :
    (fitsFields ⟨1, 2, 3⟩ ∧ fitsFields ⟨1, 3, 0⟩) ∧ GetBuildNumber ⟨1, 2, 3⟩ = 291 ∧
      (lexLt ⟨1, 2, 3⟩ ⟨1, 3, 0⟩ ↔ GetBuildNumber ⟨1, 2, 3⟩ < GetBuildNumber ⟨1, 3, 0⟩) :=
  ⟨by decide, (GetBuildNumber_packing ⟨1, 2, 3⟩ ⟨1, 3, 0⟩ (by decide) (by decide)).1,
    (GetBuildNumber_packing ⟨1, 2, 3⟩ ⟨1, 3, 0⟩ (by decide) (by decide)).2.2.2.1⟩

/-! ## The SKSE message handler -/

/-- C2: on a `kPreLoadGame` message, whatever the hook state and the startup
configuration name, the handler calls `StopCurrentConfig` first; with an empty name
it then only logs, and `RunConfig` is not called; with a non-empty name it logs and
then calls `RunConfig` once, with exactly that name. The hook ends in the state these
calls produce and the settings are left as they were. -/
theorem MessageHandler_kPreLoadGame_stop_then_run {H ε : Type} (host : Host)
    (ops : Collaborators H ε) (w : World H) :
    let name := w.settings.papyrusProfilerSettings.startupConfig
    let w' := MessageHandler host ops MessageType.kPreLoadGame w
    w'.trace =
        w.trace ++ Call.StopCurrentConfig ::
          (if name.isEmpty then
            [Call.log LogLevel.info "Not starting any profiling config, .ini setting is empty."]
          else
            [Call.log LogLevel.info ("Starting up profiling config from .ini: " ++ name),
              Call.RunConfig name]) ∧
      w'.hook =
        (if name.isEmpty then ops.StopCurrentConfig w.hook
          else ops.RunConfig name (ops.StopCurrentConfig w.hook)) ∧
      w'.settings = w.settings := by
  intro name w'
  by_cases h : name.isEmpty = true
  · have h' : w.settings.papyrusProfilerSettings.startupConfig.isEmpty = true := h
    simp [w', name, MessageHandler, ProfilingHook.StopCurrentConfig, logger, World.call, h']
  · have h' : w.settings.papyrusProfilerSettings.startupConfig.isEmpty = false := by
      simpa [name] using h
    simp [w', name, MessageHandler, ProfilingHook.StopCurrentConfig, ProfilingHook.RunConfig,
      logger, World.call, h']

/-- The first block of the `switch`: on a `kNewGame` message the handler registers
`ModMessageHandler` with the messaging interface and writes one log line; it makes no
`RunConfig` call, whatever the startup configuration name, and the hook is left as it
was. -/
theorem MessageHandler_kNewGame_no_RunConfig {H ε : Type} (host : Host)
    (ops : Collaborators H ε) (w : World H) :
    let w' := MessageHandler host ops MessageType.kNewGame w
    w'.hook = w.hook ∧
      w'.trace =
        w.trace ++
          [Call.RegisterListenerFrom none Handler.ModMessageHandler,
            Call.log LogLevel.info
              (if host.registerModListener then
                "Successfully registered SKSE listener " ++ host.PapyrusProfilerPluginName ++
                  " with buildnumber " ++ toString (GetBuildNumber host.PROJECT_VER)
              else "Unable to register SKSE listener")] ∧
      ∀ configName, Call.RunConfig configName ∈ w'.trace ↔ Call.RunConfig configName ∈ w.trace := by
  intro w'
  cases h : host.registerModListener <;>
    simp [w', MessageHandler, logger, World.call, h]

/-- C3, the code at a new game with startup configuration `Startup` while `Old` runs:
the handler registers `ModMessageHandler` and writes one log line; it does not call
`RunConfig "Startup"`, and the hook still runs `Old`. The same world on a
`kPreLoadGame` message ends with the hook running `Startup`. -/
theorem MessageHandler_kNewGame_at_Startup :
    exampleWorld.settings.papyrusProfilerSettings.startupConfig = "Startup" ∧
      (MessageHandler exampleHost exampleOps MessageType.kNewGame exampleWorld).trace =
        [Call.RegisterListenerFrom none Handler.ModMessageHandler,
          Call.log LogLevel.info
            "Successfully registered SKSE listener PapyrusProfiler with buildnumber 291"] ∧
      Call.RunConfig "Startup" ∉
        (MessageHandler exampleHost exampleOps MessageType.kNewGame exampleWorld).trace ∧
      (MessageHandler exampleHost exampleOps MessageType.kNewGame exampleWorld).hook = ["Old"] ∧
      (MessageHandler exampleHost exampleOps MessageType.kPreLoadGame exampleWorld).hook =
        ["Startup"] := by
  refine ⟨rfl, ?_, ?_, rfl, rfl⟩ <;> decide

/-! ## The mod-support API -/

/-- C5: each operation of the control surface is one call on its collaborator.
`StartProfilingConfig n` appends the single call `RunConfig n` and leaves the world
`RunConfig n` leaves; `StopProfiling` appends the single call `StopCurrentConfig` and
leaves the world `StopCurrentConfig` leaves; `LoadSettings` appends the single call
`Load`, ends the way `Load` ends, and leaves the hook as it was. -/
theorem PapyrusProfilerInterface001_delegates {H ε : Type} (ops : Collaborators H ε)
    (n : String) (w : World H) :
    ((PapyrusProfilerInterface001.StartProfilingConfig ops n w).trace =
          w.trace ++ [Call.RunConfig n] ∧
        (PapyrusProfilerInterface001.StartProfilingConfig ops n w).hook =
          ops.RunConfig n w.hook ∧
        (PapyrusProfilerInterface001.StartProfilingConfig ops n w).settings = w.settings ∧
        PapyrusProfilerInterface001.StartProfilingConfig ops n w =
          ProfilingHook.RunConfig ops n w) ∧
      ((PapyrusProfilerInterface001.StopProfiling ops w).trace =
          w.trace ++ [Call.StopCurrentConfig] ∧
        (PapyrusProfilerInterface001.StopProfiling ops w).hook =
          ops.StopCurrentConfig w.hook ∧
        (PapyrusProfilerInterface001.StopProfiling ops w).settings = w.settings ∧
        PapyrusProfilerInterface001.StopProfiling ops w =
          ProfilingHook.StopCurrentConfig ops w) ∧
      ((PapyrusProfilerInterface001.LoadSettings ops w).2.trace = w.trace ++ [Call.Load] ∧
        (PapyrusProfilerInterface001.LoadSettings ops w).2.hook = w.hook ∧
        (PapyrusProfilerInterface001.LoadSettings ops w).2.settings =
          (ops.Load w.settings).1 ∧
        PapyrusProfilerInterface001.LoadSettings ops w = Settings.Load ops w) := by
  refine ⟨⟨rfl, rfl, rfl, rfl⟩, ⟨rfl, rfl, rfl, rfl⟩, ?_, ?_, ?_, rfl⟩ <;>
    · unfold PapyrusProfilerInterface001.LoadSettings Settings.Load
      cases (ops.Load w.settings).2 <;> rfl

/-- C8: `GetApi 1` returns the address of `g_interface001`, which is not null and is
the same object in every world, and for every revision number other than 1, zero
included, `GetApi` returns null. -/
theorem GetApi_revision {H : Type} (revisionNumber : Nat) (w w' : World H)
    (h : revisionNumber ≠ 1) :
    (GetApi 1 w).1 = some ApiObject.g_interface001 ∧
      (GetApi 1 w).1 ≠ none ∧
      (GetApi 1 w').1 = (GetApi 1 w).1 ∧
      (GetApi revisionNumber w).1 = none ∧
      (GetApi 0 w).1 = none := by
  refine ⟨rfl, by simp [GetApi], rfl, ?_, rfl⟩
  unfold GetApi
  split
  · exact absurd rfl h
  · rfl

/-- Witness of `GetApi_revision` at revision number 2. -/
theorem GetApi_revision_witness :
    (2 : Nat) ≠ 1 ∧
      (GetApi 2 (World.mk () ⟨⟨"Startup"⟩⟩ [])).1 = none ∧
      (GetApi 1 (World.mk () ⟨⟨"Startup"⟩⟩ [])).1 = some ApiObject.g_interface001 :=
  ⟨by decide,
    (GetApi_revision 2 (World.mk () ⟨⟨"Startup"⟩⟩ []) (World.mk () ⟨⟨""⟩⟩ [])
      (by decide)).2.2.2.1,
    (GetApi_revision 2 (World.mk () ⟨⟨"Startup"⟩⟩ []) (World.mk () ⟨⟨""⟩⟩ [])
      (by decide)).1⟩

/-! ## Plugin load -/

/-- C6: when the log directory is found and the Papyrus registration succeeds,
`SKSEPluginLoad` returns `true` however `Settings::Load` ends. An exception of `Load`
is caught and answered with one error log line; after it the hook is installed and
`MessageHandler` is registered as listener, as the trace of calls shows. -/
theorem SKSEPluginLoad_tolerates_Load {H ε : Type} (host : Host) (ops : Collaborators H ε)
    (w : World H) (path : String) (hlog : host.log_directory = some path)
    (hpapyrus : host.papyrusRegister = true) :
    (SKSEPluginLoad host ops w).1 = Outcome.returned true ∧
      (SKSEPluginLoad host ops w).2.hook = ops.InstallHook w.hook ∧
      (SKSEPluginLoad host ops w).2.settings = (ops.Load w.settings).1 ∧
      (SKSEPluginLoad host ops w).2.trace =
        w.trace ++
          [Call.set_default_logger
              (if host.IsDebuggerPresent then Sink.msvc_sink_mt
                else Sink.basic_file_sink_mt path (host.pluginName ++ ".log"))
              (if host.NDEBUG then LogLevel.info else LogLevel.trace),
            Call.set_pattern "[%Y-%m-%d %H:%M:%S.%e] [%n] [%l] [%t] [%s:%#] %v",
            Call.log LogLevel.info
              (host.pluginName ++ " " ++ host.pluginVersion ++ " is loading..."),
            Call.Init,
            Call.Load] ++
          (match (ops.Load w.settings).2 with
            | none => []
            | some _ =>
              [Call.log LogLevel.error
                "Exception caught when loading settings! Default settings will be used"]) ++
          [Call.log LogLevel.trace "Initializing hooks...",
            Call.InstallHook,
            Call.log LogLevel.trace "Hooks initialized.",
            Call.log LogLevel.trace "Initializing Papyrus bindings...",
            Call.PapyrusRegister,
            Call.log LogLevel.debug "Papyrus functions bound.",
            Call.RegisterListener Handler.MessageHandler,
            Call.log LogLevel.info (host.pluginName ++ " has finished loading.")] := by
  cases hload : (ops.Load w.settings).2 <;>
    simp [SKSEPluginLoad, InitializeLogging, InitializeHooks, InitializePapyrus, Settings.Load,
      ProfilingHook.InstallHook, andThen, tryCatchAll, logger, World.call, hlog, hpapyrus, hload]

/-- Witness of `SKSEPluginLoad_tolerates_Load`: a settings loader that throws. -/
theorem SKSEPluginLoad_tolerates_Load_witness :
    (exampleHost.log_directory = some "SKSE" ∧ exampleHost.papyrusRegister = true ∧
        (exampleOps.Load exampleWorld.settings).2 = some "cannot read the .ini file") ∧
      (SKSEPluginLoad exampleHost exampleOps exampleWorld).1 = Outcome.returned true :=
  ⟨⟨rfl, rfl, rfl⟩,
    (SKSEPluginLoad_tolerates_Load exampleHost exampleOps exampleWorld "SKSE" rfl rfl).1⟩

/-! ## ProfilingConfig -/

/-- C4: a `ProfilingConfig` holding its default member initialisers has empty include
and exclude filters, no call or time limit, nothing to skip, write mode `WriteAtEnd`
and `failedLoadFromFile = false`. -/
theorem ProfilingConfig_memberDefaults (ρ : Type) :
    (ProfilingConfig.memberDefaults ρ).includeFilters = [] ∧
      (ProfilingConfig.memberDefaults ρ).excludeFilters = [] ∧
      (ProfilingConfig.memberDefaults ρ).maxNumCalls = 0 ∧
      (ProfilingConfig.memberDefaults ρ).maxNumSeconds = 0 ∧
      (ProfilingConfig.memberDefaults ρ).numSkipCalls = 0 ∧
      (ProfilingConfig.memberDefaults ρ).numSkipSeconds = 0 ∧
      (ProfilingConfig.memberDefaults ρ).writeMode = ProfileWriteMode.WriteAtEnd ∧
      (ProfilingConfig.memberDefaults ρ).failedLoadFromFile = false :=
  ⟨rfl, rfl, rfl, rfl, rfl, rfl, rfl, rfl⟩

/-- C9, counterexample: `Invalid` is a value of `ProfileWriteMode`, with code 3, and
it is none of `WriteAtEnd`, `WriteLive`, `NoWrite`; neither is the value with code 4,
which is not even a declared enumerator. -/
theorem ProfileWriteMode_Invalid_is_fourth :
    ¬ (ProfileWriteMode.Invalid = ProfileWriteMode.WriteAtEnd ∨
        ProfileWriteMode.Invalid = ProfileWriteMode.WriteLive ∨
        ProfileWriteMode.Invalid = ProfileWriteMode.NoWrite) ∧
      ProfileWriteMode.Invalid.toUInt32 = 3 ∧
      ¬ (ProfileWriteMode.ofUInt32 4 = ProfileWriteMode.WriteAtEnd ∨
        ProfileWriteMode.ofUInt32 4 = ProfileWriteMode.WriteLive ∨
        ProfileWriteMode.ofUInt32 4 = ProfileWriteMode.NoWrite ∨
        ProfileWriteMode.ofUInt32 4 = ProfileWriteMode.Invalid) := by
  decide

/-- C9, amended: the three write modes `WriteAtEnd`, `WriteLive` and `NoWrite` carry
the distinct codes 0, 1 and 2, and the fourth declared enumerator `Invalid` carries 3;
a value of `ProfileWriteMode` is determined by its code, and it is one of the three
write modes exactly when its code is below 3; the write mode a configuration starts
with is `WriteAtEnd`. -/
theorem ProfileWriteMode_values (m m' : ProfileWriteMode) (ρ : Type) :
    ProfileWriteMode.WriteAtEnd.toUInt32 = 0 ∧
      ProfileWriteMode.WriteLive.toUInt32 = 1 ∧
      ProfileWriteMode.NoWrite.toUInt32 = 2 ∧
      ProfileWriteMode.Invalid.toUInt32 = 3 ∧
      (m.toUInt32 = m'.toUInt32 ↔ m = m') ∧
      ((m = ProfileWriteMode.WriteAtEnd ∨ m = ProfileWriteMode.WriteLive ∨
          m = ProfileWriteMode.NoWrite) ↔ m.toUInt32 < 3) ∧
      (m = ProfileWriteMode.Invalid ↔ m.toUInt32 = 3) ∧
      (ProfilingConfig.memberDefaults ρ).writeMode = ProfileWriteMode.WriteAtEnd := by
  obtain ⟨c, hc⟩ := m
  obtain ⟨c', hc'⟩ := m'
  refine ⟨rfl, rfl, rfl, rfl, ?_, ?_, ?_, rfl⟩
  · simp
  · simp only [ProfileWriteMode.WriteAtEnd, ProfileWriteMode.WriteLive,
      ProfileWriteMode.NoWrite, ProfileWriteMode.mk.injEq]
    omega
  · simp [ProfileWriteMode.Invalid]

/-! ## The filter decision -/

/-- C7: a call-stack signature that an exclude pattern of the configuration matches is
rejected, whatever the include filters are and whether or not one of them matches. -/
theorem Accept_exclude_wins {ρ : Type} (regex_search : String → ρ → Bool)
    (config : ProfilingConfig ρ) (stackSignature : String)
    (h : ∃ pattern ∈ config.excludeFilters, regex_search stackSignature pattern = true) :
    Accept regex_search config stackSignature = false := by
  have hany : config.excludeFilters.any (regex_search stackSignature) = true :=
    List.any_eq_true.mpr h
  unfold Accept
  split
  · rfl
  · simp [hany]

/-- Witness of `Accept_exclude_wins`: `Actor::MoveDebug` matches the include pattern
`Actor::` and the exclude pattern `Debug`, and is rejected. -/
theorem Accept_exclude_wins_witness :
    (∃ pattern ∈ ["Debug"], literalSearch "Actor::MoveDebug" pattern = true) ∧
      literalSearch "Actor::MoveDebug" "Actor::" = true ∧
      Accept literalSearch
        { includeFilters := ["Actor::"], excludeFilters := ["Debug"] }
        "Actor::MoveDebug" = false :=
  ⟨⟨"Debug", by simp, by decide⟩, by decide,
    Accept_exclude_wins literalSearch
      { includeFilters := ["Actor::"], excludeFilters := ["Debug"] }
      "Actor::MoveDebug" ⟨"Debug", by simp, by decide⟩⟩

end PapyrusProfiler
